import Mathlib

/-!
Shallow embedding of the effect coordination layer of the structured-content
editor (source: src/editor/store/effects.js).  Each effect handler is
translated into a pure function from the values it reads (selector results,
action payload, and the outcome of the persistence request it issues) to the
ordered list of values it dispatches.  External collaborators (selectors,
persistence service, block registry, parser/serializer) are passed in as
explicit parameters or modelled as opaque data, following the spec, and are
marked as such in the doc comments.
-/

namespace GutenbergEffects

/-- Error value carried by a rejected persistence request: `{code, message}`. -/
structure Error where
  code : String
  message : String
deriving DecidableEq, Repr

/-- The current post as returned by the external `getCurrentPost` selector.
The fields used by the effects module are its id, status, the autosavable
field values, and the view link. -/
structure Post where
  id : Nat
  status : String
  title : String
  content : String
  excerpt : String
  link : String
deriving DecidableEq, Repr

/-- Unsaved field deltas as returned by the external `getPostEdits` selector.
A field holds `none` when the corresponding key is absent from the edits
object. -/
structure Edits where
  status : Option String := none
  title : Option String := none
  content : Option String := none
  excerpt : Option String := none
deriving DecidableEq, Repr

/-- The last known autosave snapshot as returned by the external
`getAutosave` selector (fields it may carry). -/
structure Autosave where
  title : Option String := none
  content : Option String := none
  excerpt : Option String := none
deriving DecidableEq, Repr

/-- Request payload for the post update / autosave request (`toSend`).
`none` in an optional field means the key is absent from the sent object. -/
structure Payload where
  id : Nat
  status : Option String
  title : Option String
  content : String
  excerpt : Option String
  parent : Option Nat
deriving DecidableEq, Repr

/-- Data sent by a reusable block create/update request. -/
structure RBData where
  id : Option String
  title : String
  content : String
deriving DecidableEq, Repr

/-- A reusable block entry as returned by the external `getReusableBlock`
selector. -/
structure ReusableBlock where
  id : String
  clientId : String
  title : String
  isTemporary : Bool
deriving DecidableEq, Repr

/-- A reusable block resource as returned by the persistence service. -/
structure RawReusableBlock where
  id : String
  title : String
  content : String
deriving DecidableEq, Repr

/-- A node of the structured content tree. -/
inductive Block where
  | mk (clientId : String) (name : String) (attributes : List (String × String))
      (innerBlocks : List Block)

mutual

/-- Decidable equality for blocks (the automatic derivation does not handle
the nested list of child blocks). -/
def Block.decEq : (a b : Block) → Decidable (a = b)
  | .mk c1 n1 a1 i1, .mk c2 n2 a2 i2 =>
    match inferInstanceAs (Decidable (c1 = c2)) with
    | isFalse h => isFalse (fun he => by cases he; exact h rfl)
    | isTrue hc =>
      match inferInstanceAs (Decidable (n1 = n2)) with
      | isFalse h => isFalse (fun he => by cases he; exact h rfl)
      | isTrue hn =>
        match inferInstanceAs (Decidable (a1 = a2)) with
        | isFalse h => isFalse (fun he => by cases he; exact h rfl)
        | isTrue ha =>
          match Block.decEqList i1 i2 with
          | isFalse h => isFalse (fun he => by cases he; exact h rfl)
          | isTrue hi => isTrue (by rw [hc, hn, ha, hi])

/-- Decidable equality for lists of blocks. -/
def Block.decEqList : (a b : List Block) → Decidable (a = b)
  | [], [] => isTrue rfl
  | [], _ :: _ => isFalse (fun h => by cases h)
  | _ :: _, [] => isFalse (fun h => by cases h)
  | x :: xs, y :: ys =>
    match Block.decEq x y with
    | isFalse h => isFalse (fun he => by cases he; exact h rfl)
    | isTrue hx =>
      match Block.decEqList xs ys with
      | isFalse h => isFalse (fun he => by cases he; exact h rfl)
      | isTrue hxs => isTrue (by rw [hx, hxs])

end

instance : DecidableEq Block := Block.decEq

/-- Client id (opaque unique handle) of a block. -/
def Block.clientId : Block → String
  | .mk c _ _ _ => c

/-- Type name of a block. -/
def Block.name : Block → String
  | .mk _ n _ _ => n

/-- Attribute map of a block, as an association list. -/
def Block.attributes : Block → List (String × String)
  | .mk _ _ a _ => a

/-- Child nodes of a block. -/
def Block.innerBlocks : Block → List Block
  | .mk _ _ _ i => i

/-- Block type registry entry (external `getBlockType`): the merge field is
the optional merge capability, a function from the attributes of the two
blocks to the combined attributes. -/
structure BlockType where
  name : String
  merge : Option (List (String × String) → List (String × String) → List (String × String))

/-- Transaction phase markers from the optimist middleware. -/
inductive OptimistType where
  | BEGIN
  | COMMIT
  | REVERT
deriving DecidableEq, Repr

/-- Values dispatched (or requests issued) by the effect handlers, in order.
Each constructor mirrors one dispatched action shape or one persistence
request of the source module. -/
inductive Action where
  | requestPostUpdateStart (transactionId : String) (isAutosave : Bool)
  | updatePost (payload : Payload) (transactionId : String)
  | removeNotice (noticeId : String)
  | postAutosaveRequest (path : String) (data : Payload)
  | postUpdateRequest (path : String) (data : Payload)
  | resetAutosave (post : Post)
  | resetPost (post : Post)
  | requestPostUpdateSuccess (previousPost : Post) (post : Post)
      (phase : OptimistType) (transactionId : String) (isAutosave : Bool)
  | requestPostUpdateFailure (post : Post) (edits : Edits) (error : Error)
      (phase : OptimistType) (transactionId : String)
  | dirtyArtificially
  | createSuccessNotice (message : String) (withLink : Bool) (noticeId : String)
      (spokenMessage : Option String)
  | createErrorNotice (message : String) (noticeId : String)
      (spokenMessage : Option String)
  | selectBlock (clientId : String) (initialPosition : Option Int)
  | replaceBlocks (clientIds : List String) (blocks : List Block)
  | removeBlock (clientId : String) (selectPrevious : Bool)
  | removeBlocks (clientIds : List String)
  | readRequest (path : String)
  | deleteRequest (path : String)
  | reusableCreateRequest (path : String) (data : RBData)
  | reusableUpdateRequest (path : String) (data : RBData)
  | receiveReusableBlocks (results : List (RawReusableBlock × Option Block))
  | fetchReusableBlocksSuccess (id : Option String)
  | fetchReusableBlocksFailure (id : Option String) (error : Error)
  | saveReusableBlockSuccess (updatedId : String) (id : String)
  | saveReusableBlockFailure (id : String)
  | removeReusableBlock (id : String) (phase : OptimistType) (transactionId : String)
  | deleteReusableBlockSuccess (id : String) (phase : OptimistType) (transactionId : String)
  | deleteReusableBlockFailure (id : String) (phase : OptimistType) (transactionId : String)
deriving DecidableEq

/-- Module constant from the source. -/
def SAVE_POST_NOTICE_ID : String := "SAVE_POST_NOTICE_ID"

/-- Module constant from the source. -/
def AUTOSAVE_POST_NOTICE_ID : String := "AUTOSAVE_POST_NOTICE_ID"

/-- Module constant from the source. -/
def TRASH_POST_NOTICE_ID : String := "TRASH_POST_NOTICE_ID"

/-- Module constant from the source. -/
def REUSABLE_BLOCK_NOTICE_ID : String := "REUSABLE_BLOCK_NOTICE_ID"

/-- Modelled from the spec: the fixed, save-scoped transaction identifier
(`POST_UPDATE_TRANSACTION_ID`), imported by the source from the external
selectors module.  Its concrete value is irrelevant; only its fixedness is. -/
def POST_UPDATE_TRANSACTION_ID : String := "POST_UPDATE_TRANSACTION_ID"

/-- Editor state, as seen through the external selectors the save pipeline
reads.  Each field corresponds to one selector call of the source. -/
structure EditorState where
  post : Post
  edits : Edits
  autosave : Option Autosave
  isEditedPostNew : Bool
  editedPostContent : String
  isEditedPostSaveable : Bool
  isEditedPostAutosaveable : Bool
  postTypeRoute : String
deriving DecidableEq, Repr

/-- Outcome of the post update / autosave request. -/
inductive SaveOutcome where
  | success (newPost : Post)
  | failure (error : Error)
deriving DecidableEq, Repr

/-- The autosave restriction of edits: `pick( edits, [ 'title', 'content',
'excerpt' ] )`, which drops any other edited field (in particular the
status). -/
def pickAutosaveEdits (edits : Edits) : Edits :=
  { title := edits.title, content := edits.content, excerpt := edits.excerpt,
    status := none }

/-- The edits the request is built from: the autosave field restriction when
autosaving, then the default draft status injection for new
(auto-draft-equivalent) posts: `edits = \x7b status: 'draft', ...edits \x7d`, so
an explicitly edited status wins over the injected draft. -/
def effectiveEdits (state : EditorState) (isAutosave : Bool) : Edits :=
  let edits := if isAutosave = true then pickAutosaveEdits state.edits else state.edits
  if state.isEditedPostNew = true then
    { edits with status := some (edits.status.getD "draft") }
  else edits

/-- The `toSend` object before the autosave wrapping: all effective edits,
overridden by the current serialized content and the post id. -/
def requestPostUpdateBasePayload (state : EditorState) (isAutosave : Bool) : Payload :=
  let edits := effectiveEdits state isAutosave
  { id := state.post.id, status := edits.status, title := edits.title,
    excerpt := edits.excerpt, content := state.editedPostContent, parent := none }

/-- The autosave request data: `\x7b ...pick( post, [title, content, excerpt] ),
...getAutosave( state ), ...toSend, parent: post.id \x7d`.  Later spreads win,
so each autosavable field is backfilled from the autosave snapshot and then
from the post itself when missing from `toSend`. -/
def autosaveRequestData (state : EditorState) (toSend : Payload) : Payload :=
  let post := state.post
  let auto := state.autosave.getD {}
  { id := toSend.id,
    status := toSend.status,
    title := some ((toSend.title.orElse fun _ => auto.title).getD post.title),
    content := toSend.content,
    excerpt := some ((toSend.excerpt.orElse fun _ => auto.excerpt).getD post.excerpt),
    parent := some post.id }

/-- The data actually sent by the issued request: the base payload, wrapped
with the autosave backfill when autosaving. -/
def requestPostUpdateRequestData (state : EditorState) (isAutosave : Bool) : Payload :=
  let toSend := requestPostUpdateBasePayload state isAutosave
  if isAutosave = true then autosaveRequestData state toSend else toSend

/-- The published-family status list of the source. -/
def publishStatus : List String := ["publish", "private", "future"]

/-- The status-specific publish message map of the success handler; `none`
models an absent key (JS undefined). -/
def publishStatusMessages (status : String) : Option String :=
  if status = "publish" then some "Post published!"
  else if status = "private" then some "Post published privately!"
  else if status = "future" then some "Post scheduled!"
  else none

/-- Success notice selection of `REQUEST_POST_UPDATE_SUCCESS`: the optional
pair of message and whether a view link is shown. -/
def saveSuccessNotice (previousPost post : Post) : Option (String × Bool) :=
  let isPublished := previousPost.status ∈ publishStatus
  let willPublish := post.status ∈ publishStatus
  if ¬ isPublished ∧ ¬ willPublish then none
  else if isPublished ∧ ¬ willPublish then some ("Post reverted to draft.", false)
  else if ¬ isPublished ∧ willPublish then
    (publishStatusMessages post.status).map (fun m => (m, true))
  else some ("Post updated!", true)

/-- Effects of the `REQUEST_POST_UPDATE_SUCCESS` handler: an artificial
dirtying when edits remain pending, then (for full saves only) the selected
success notice. -/
def REQUEST_POST_UPDATE_SUCCESS (previousPost post : Post) (isAutosave : Bool)
    (editsRemain : Bool) : List Action :=
  (if editsRemain = true then [Action.dirtyArtificially] else []) ++
  (if isAutosave = true then []
   else
     match saveSuccessNotice previousPost post with
     | none => []
     | some (m, withLink) =>
       [Action.createSuccessNotice m withLink SAVE_POST_NOTICE_ID (some m)])

/-- The status-specific failure message map of the failure handler. -/
def saveFailureMessages (status : String) : Option String :=
  if status = "publish" then some "Publishing failed"
  else if status = "private" then some "Publishing failed"
  else if status = "future" then some "Scheduling failed"
  else none

/-- Failure notice message selection of `REQUEST_POST_UPDATE_FAILURE`: the
status-specific failed message when the post was not yet published and the
attempted edits carried a published-family status, else the generic one. -/
def saveFailureNoticeMessage (post : Post) (edits : Edits) : String :=
  match edits.status with
  | none => "Updating failed"
  | some s =>
    if post.status ∉ publishStatus ∧ s ∈ publishStatus then
      (saveFailureMessages s).getD "Updating failed"
    else "Updating failed"

/-- Effects of the `REQUEST_POST_UPDATE_FAILURE` handler: nothing when the
error is the recognized autosave no-changes code, else an error notice. -/
def REQUEST_POST_UPDATE_FAILURE (post : Post) (edits : Edits) (error : Error) :
    List Action :=
  if error.code = "rest_autosave_no_changes" then []
  else
    [Action.createErrorNotice (saveFailureNoticeMessage post edits)
      SAVE_POST_NOTICE_ID none]

/-- Effects of `REQUEST_POST_UPDATE` past the saveability gate, including the
follow-up handler of the dispatched success or failure action.
`editsRemainAfter` is the value of the nonempty-edits check the success
handler performs against the state at completion time. -/
def requestPostUpdateFlow (state : EditorState) (isAutosave : Bool)
    (outcome : SaveOutcome) (editsRemainAfter : Bool) : List Action :=
  let post := state.post
  let toSend := requestPostUpdateBasePayload state isAutosave
  let basePath := state.postTypeRoute
  [Action.requestPostUpdateStart POST_UPDATE_TRANSACTION_ID isAutosave,
   Action.updatePost toSend POST_UPDATE_TRANSACTION_ID] ++
  (if isAutosave = true then
     [Action.postAutosaveRequest
        ("/wp/v2/" ++ basePath ++ "/" ++ toString post.id ++ "/autosaves")
        (autosaveRequestData state toSend)]
   else
     [Action.removeNotice SAVE_POST_NOTICE_ID,
      Action.removeNotice AUTOSAVE_POST_NOTICE_ID,
      Action.postUpdateRequest ("/wp/v2/" ++ basePath ++ "/" ++ toString post.id)
        toSend]) ++
  (match outcome with
   | SaveOutcome.success newPost =>
     [(if isAutosave = true then Action.resetAutosave newPost
       else Action.resetPost newPost),
      Action.requestPostUpdateSuccess post newPost
        (if newPost.id ≠ post.id then OptimistType.REVERT else OptimistType.COMMIT)
        POST_UPDATE_TRANSACTION_ID isAutosave] ++
     REQUEST_POST_UPDATE_SUCCESS post newPost isAutosave editsRemainAfter
   | SaveOutcome.failure error =>
     [Action.requestPostUpdateFailure post (effectiveEdits state isAutosave) error
        OptimistType.REVERT POST_UPDATE_TRANSACTION_ID] ++
     REQUEST_POST_UPDATE_FAILURE post (effectiveEdits state isAutosave) error)

/-- The `REQUEST_POST_UPDATE` handler: the saveability gate (autosaveable
for autosaves, saveable for full saves) followed by the save flow. -/
def REQUEST_POST_UPDATE (state : EditorState) (isAutosave : Bool)
    (outcome : SaveOutcome) (editsRemainAfter : Bool) : List Action :=
  if (if isAutosave = true then state.isEditedPostAutosaveable
      else state.isEditedPostSaveable) = true then
    requestPostUpdateFlow state isAutosave outcome editsRemainAfter
  else []

/-- Effects of the `TRASH_POST_FAILURE` handler: an error notice preferring
the server message unless it is missing or carries the generic unknown
code. -/
def TRASH_POST_FAILURE (error : Error) : List Action :=
  let message :=
    if error.message ≠ "" ∧ error.code ≠ "unknown_error" then error.message
    else "Trashing failed"
  [Action.createErrorNotice message TRASH_POST_NOTICE_ID none]

/-- Lookup of a key in an attribute association list. -/
def attrLookup (attrs : List (String × String)) (key : String) : Option String :=
  match attrs with
  | [] => none
  | (k, v) :: rest => if k = key then some v else attrLookup rest key

/-- Object spread `\x7b ...a, ...b \x7d` on attribute maps: the keys of `a` in
order with values overridden by `b` where present, followed by the keys of
`b` not present in `a`. -/
def jsSpread (a b : List (String × String)) : List (String × String) :=
  a.map (fun p => match attrLookup b p.1 with | some v => (p.1, v) | none => p) ++
  b.filter (fun p => (attrLookup a p.1).isNone)

/-- Effects of the `MERGE_BLOCKS` handler.  The block type registry
(`getBlockType`) and the block transformation (`switchToBlockType`, returning
`none` when no transform applies) are the external collaborators of the
source. -/
def MERGE_BLOCKS (getBlockType : String → BlockType)
    (switchToBlockType : Block → String → Option (List Block))
    (blockA blockB : Block) : List Action :=
  match (getBlockType blockA.name).merge with
  | none => [Action.selectBlock blockA.clientId none]
  | some mergeFn =>
    let blocksWithTheSameType :=
      if blockA.name = blockB.name then some [blockB]
      else switchToBlockType blockB blockA.name
    match blocksWithTheSameType with
    | none => []
    | some [] => []
    | some (b :: rest) =>
      let updatedAttributes := mergeFn blockA.attributes b.attributes
      [Action.selectBlock blockA.clientId (some (-1)),
       Action.replaceBlocks [blockA.clientId, blockB.clientId]
         (Block.mk blockA.clientId blockA.name
            (jsSpread blockA.attributes updatedAttributes) blockA.innerBlocks
          :: rest)]

/-- Handler returning the optional action removing the provisional block: it
fires only when a provisional block is set and is not the selected block, and
it removes that block without selecting the previous one. -/
def removeProvisionalBlock (provisionalBlockClientId : Option String)
    (isBlockSelected : String → Bool) : Option Action :=
  match provisionalBlockClientId with
  | none => none
  | some cid =>
    if isBlockSelected cid = false then some (Action.removeBlock cid false)
    else none

/-- The `CLEAR_SELECTED_BLOCK` handler is `removeProvisionalBlock`. -/
def CLEAR_SELECTED_BLOCK : Option String → (String → Bool) → Option Action :=
  removeProvisionalBlock

/-- The `SELECT_BLOCK` handler is `removeProvisionalBlock`. -/
def SELECT_BLOCK : Option String → (String → Bool) → Option Action :=
  removeProvisionalBlock

/-- The `MULTI_SELECT` handler is `removeProvisionalBlock`. -/
def MULTI_SELECT : Option String → (String → Bool) → Option Action :=
  removeProvisionalBlock

/-- Outcome of the reusable block fetch request. -/
inductive FetchOutcome where
  | success (result : List RawReusableBlock)
  | failure (error : Error)

/-- Outcome of the reusable block save request. -/
inductive SaveRBOutcome where
  | success (updatedId : String)
  | failure (error : Error)

/-- Outcome of the reusable block delete request. -/
inductive DeleteOutcome where
  | success
  | failure (error : Error)

/-- Modelled from the spec: the external `isReusableBlock` predicate of the
block library, true of reference nodes (the reusable reference block type). -/
def isReusableBlock (b : Block) : Bool := b.name == "core/block"

/-- Modelled from the spec: the external `createBlock` factory.  The fresh
client id allocation is abstracted as the empty string; serialization does
not read it. -/
def createBlock (name : String) (attributes : List (String × String))
    (innerBlocks : List Block) : Block :=
  Block.mk "" name attributes innerBlocks

/-- Effects of the `FETCH_REUSABLE_BLOCKS` handler.  `basePath` is the
persistence route of the reusable block collection (`none` when
unavailable); `parse` is the external content parser. -/
def FETCH_REUSABLE_BLOCKS (basePath : Option String) (parse : String → List Block)
    (id : Option String) (outcome : FetchOutcome) : List Action :=
  match basePath with
  | none => []
  | some bp =>
    let path :=
      match id with
      | some i => "/wp/v2/" ++ bp ++ "/" ++ i
      | none => "/wp/v2/" ++ bp ++ "?per_page=-1"
    [Action.readRequest path] ++
    (match outcome with
     | FetchOutcome.success result =>
       [Action.receiveReusableBlocks
          (result.map (fun rb => (rb, (parse rb.content).head?))),
        Action.fetchReusableBlocksSuccess id]
     | FetchOutcome.failure error =>
       [Action.fetchReusableBlocksFailure id error])

/-- Effects of the `SAVE_REUSABLE_BLOCK` handler.  `reusableBlock` is the
entry read from state for the given id, `block` its registered node, and
`serialize` the external serializer. -/
def SAVE_REUSABLE_BLOCK (basePath : Option String) (serialize : Block → String)
    (id : String) (reusableBlock : ReusableBlock) (block : Block)
    (outcome : SaveRBOutcome) : List Action :=
  match basePath with
  | none => []
  | some bp =>
    let content := serialize (createBlock block.name block.attributes block.innerBlocks)
    let isTemporary := reusableBlock.isTemporary
    let data : RBData :=
      if isTemporary = true then
        { id := none, title := reusableBlock.title, content := content }
      else { id := some id, title := reusableBlock.title, content := content }
    (if isTemporary = true then
       [Action.reusableCreateRequest ("/wp/v2/" ++ bp) data]
     else [Action.reusableUpdateRequest ("/wp/v2/" ++ bp ++ "/" ++ id) data]) ++
    (match outcome with
     | SaveRBOutcome.success updatedId =>
       [Action.saveReusableBlockSuccess updatedId id,
        Action.createSuccessNotice
          (if isTemporary = true then "Block created." else "Block updated.")
          false REUSABLE_BLOCK_NOTICE_ID none]
     | SaveRBOutcome.failure error =>
       [Action.saveReusableBlockFailure id,
        Action.createErrorNotice error.message REUSABLE_BLOCK_NOTICE_ID
          (some error.message)])

/-- Effects of the `DELETE_REUSABLE_BLOCK` handler.  `reusableBlock` is the
optional entry read from state for the given id; `transactionId` the fresh
unique transaction identifier. -/
def DELETE_REUSABLE_BLOCK (basePath : Option String) (id : String)
    (reusableBlock : Option ReusableBlock) (allBlocks : List Block)
    (transactionId : String) (outcome : DeleteOutcome) : List Action :=
  match basePath with
  | none => []
  | some bp =>
    match reusableBlock with
    | none => []
    | some rb =>
      if rb.isTemporary = true then []
      else
        let associatedBlocks := allBlocks.filter
          (fun b => isReusableBlock b && attrLookup b.attributes "ref" == some id)
        let associatedBlockClientIds := associatedBlocks.map (fun b => b.clientId)
        [Action.removeReusableBlock id OptimistType.BEGIN transactionId,
         Action.removeBlocks (associatedBlockClientIds ++ [rb.clientId]),
         Action.deleteRequest ("/wp/v2/" ++ bp ++ "/" ++ id)] ++
        (match outcome with
         | DeleteOutcome.success =>
           [Action.deleteReusableBlockSuccess id OptimistType.COMMIT transactionId,
            Action.createSuccessNotice "Block deleted." false
              REUSABLE_BLOCK_NOTICE_ID none]
         | DeleteOutcome.failure error =>
           [Action.deleteReusableBlockFailure id OptimistType.REVERT transactionId,
            Action.createErrorNotice error.message REUSABLE_BLOCK_NOTICE_ID
              (some error.message)])

/-- The published-family classification, written after the words of the
specification (membership in the set of publish, private and future). -/
def specPublishedFamily (s : String) : Prop :=
  s = "publish" ∨ s = "private" ∨ s = "future"

instance (s : String) : Decidable (specPublishedFamily s) := by
  unfold specPublishedFamily; infer_instance

/-- The full-save success notice table, written after the words of the
specification: both outside the family, no notice; previous inside and new
outside, the reverted-to-draft message without view link; previous outside
and new inside, the status-specific message with view link; both inside, the
generic updated message with view link. -/
def specFullSaveNotice (prevStatus newStatus : String) : Option (String × Bool) :=
  if ¬ specPublishedFamily prevStatus ∧ ¬ specPublishedFamily newStatus then none
  else if specPublishedFamily prevStatus ∧ ¬ specPublishedFamily newStatus then
    some ("Post reverted to draft.", false)
  else if ¬ specPublishedFamily prevStatus ∧ specPublishedFamily newStatus then
    some ((if newStatus = "publish" then "Post published!"
           else if newStatus = "private" then "Post published privately!"
           else "Post scheduled!"), true)
  else some ("Post updated!", true)

/-- Membership in the published-family list of the source agrees with the
classification written from the spec. -/
theorem mem_publishStatus_iff (s : String) :
    s ∈ publishStatus ↔ specPublishedFamily s := by
  simp [publishStatus, specPublishedFamily]

/-- The notice selection of the source equals the spec table. -/
theorem saveSuccessNotice_eq_spec (p q : Post) :
    saveSuccessNotice p q = specFullSaveNotice p.status q.status := by
  unfold saveSuccessNotice specFullSaveNotice
  by_cases hp : specPublishedFamily p.status <;>
    by_cases hq : specPublishedFamily q.status <;>
      simp [mem_publishStatus_iff, hp, hq]
  rcases hq with h | h | h <;> simp [publishStatusMessages, h]

/-- C10: for every fetch, save, or delete of a reusable entry, if the
persistence route for the reusable-block collection is unavailable, the
handler is a complete no-op: no request, no state change, no notice. -/
theorem reusable_route_unavailable_noop
    (parse : String → List Block) (serialize : Block → String)
    (fid : Option String) (fout : FetchOutcome)
    (sid : String) (srb : ReusableBlock) (sblk : Block) (sout : SaveRBOutcome)
    (did : String) (dentry : Option ReusableBlock) (dblocks : List Block)
    (dtid : String) (dout : DeleteOutcome) :
    FETCH_REUSABLE_BLOCKS none parse fid fout = [] ∧
    SAVE_REUSABLE_BLOCK none serialize sid srb sblk sout = [] ∧
    DELETE_REUSABLE_BLOCK none did dentry dblocks dtid dout = [] :=
  ⟨rfl, rfl, rfl⟩

/-- C7: every delete-reusable intent whose target entry does not exist or is
still temporary refuses silently: the handler dispatches nothing at all (no
request, no transaction, no node removal, no notice). -/
theorem delete_reusable_guard (basePath : Option String) (id : String)
    (entry : Option ReusableBlock) (allBlocks : List Block)
    (transactionId : String) (outcome : DeleteOutcome)
    (h : entry = none ∨ ∃ rb, entry = some rb ∧ rb.isTemporary = true) :
    DELETE_REUSABLE_BLOCK basePath id entry allBlocks transactionId outcome = [] := by
  rcases h with h | ⟨rb, hrb, htemp⟩
  · subst h; cases basePath <;> rfl
  · subst hrb
    cases basePath with
    | none => rfl
    | some bp => simp [DELETE_REUSABLE_BLOCK, htemp]

/-- Witness for C7 at a concrete missing entry. -/
theorem delete_reusable_guard_witness :
    DELETE_REUSABLE_BLOCK (some "blocks") "7" none [] "t1" DeleteOutcome.success = [] :=
  delete_reusable_guard (some "blocks") "7" none [] "t1" DeleteOutcome.success (Or.inl rfl)

/-- C8: the trash-failure notice message equals the server error message
exactly when that message is present and the code is not the generic unknown
code; otherwise it is the canned fallback. -/
theorem trash_failure_message_selection (error : Error) :
    (error.message ≠ "" ∧ error.code ≠ "unknown_error" →
      TRASH_POST_FAILURE error =
        [Action.createErrorNotice error.message TRASH_POST_NOTICE_ID none]) ∧
    (error.message = "" ∨ error.code = "unknown_error" →
      TRASH_POST_FAILURE error =
        [Action.createErrorNotice "Trashing failed" TRASH_POST_NOTICE_ID none]) := by
  constructor
  · intro h; simp only [TRASH_POST_FAILURE, if_pos h]
  · intro h
    have hn : ¬ (error.message ≠ "" ∧ error.code ≠ "unknown_error") := by tauto
    simp only [TRASH_POST_FAILURE, if_neg hn]

/-- Witness for C8 at the concrete scenario: error code forbidden with
message "No." produces the failure notice message "No.". -/
theorem trash_failure_message_selection_witness :
    TRASH_POST_FAILURE { code := "forbidden", message := "No." } =
      [Action.createErrorNotice "No." TRASH_POST_NOTICE_ID none] :=
  (trash_failure_message_selection { code := "forbidden", message := "No." }).1
    (by decide)

/-- C9: every selection-changing handler equals the provisional removal
handler, which removes exactly the provisional node without selecting the
previous one when a provisional node exists and is not selected, and changes
nothing otherwise. -/
theorem selection_change_removes_provisional (prov : Option String)
    (isBlockSelected : String → Bool) :
    CLEAR_SELECTED_BLOCK prov isBlockSelected =
      removeProvisionalBlock prov isBlockSelected ∧
    SELECT_BLOCK prov isBlockSelected =
      removeProvisionalBlock prov isBlockSelected ∧
    MULTI_SELECT prov isBlockSelected =
      removeProvisionalBlock prov isBlockSelected ∧
    (∀ cid, prov = some cid → isBlockSelected cid = false →
      removeProvisionalBlock prov isBlockSelected =
        some (Action.removeBlock cid false)) ∧
    (prov = none → removeProvisionalBlock prov isBlockSelected = none) ∧
    (∀ cid, prov = some cid → isBlockSelected cid = true →
      removeProvisionalBlock prov isBlockSelected = none) := by
  refine ⟨rfl, rfl, rfl, ?_, ?_, ?_⟩
  · intro cid h hsel; subst h; simp [removeProvisionalBlock, hsel]
  · intro h; subst h; rfl
  · intro cid h hsel; subst h; simp [removeProvisionalBlock, hsel]

/-- Witness for C9 at a concrete unselected provisional block. -/
theorem selection_change_removes_provisional_witness :
    CLEAR_SELECTED_BLOCK (some "p1") (fun _ => false) =
      removeProvisionalBlock (some "p1") (fun _ => false) ∧
    SELECT_BLOCK (some "p1") (fun _ => false) =
      removeProvisionalBlock (some "p1") (fun _ => false) ∧
    MULTI_SELECT (some "p1") (fun _ => false) =
      removeProvisionalBlock (some "p1") (fun _ => false) ∧
    (∀ cid, some "p1" = some cid → (fun _ : String => false) cid = false →
      removeProvisionalBlock (some "p1") (fun _ => false) =
        some (Action.removeBlock cid false)) ∧
    (some "p1" = none →
      removeProvisionalBlock (some "p1") (fun _ => false) = none) ∧
    (∀ cid, some "p1" = some cid → (fun _ : String => false) cid = true →
      removeProvisionalBlock (some "p1") (fun _ => false) = none) :=
  selection_change_removes_provisional (some "p1") (fun _ => false)

/-- C6: a merge attempt where the first node type declares no merge
capability only selects the first node: no replacement or removal is
dispatched. -/
theorem merge_blocks_without_capability (getBlockType : String → BlockType)
    (switchToBlockType : Block → String → Option (List Block))
    (blockA blockB : Block)
    (hmerge : (getBlockType blockA.name).merge = none) :
    MERGE_BLOCKS getBlockType switchToBlockType blockA blockB =
      [Action.selectBlock blockA.clientId none] ∧
    (∀ ids bs, Action.replaceBlocks ids bs ∉
      MERGE_BLOCKS getBlockType switchToBlockType blockA blockB) ∧
    (∀ ids, Action.removeBlocks ids ∉
      MERGE_BLOCKS getBlockType switchToBlockType blockA blockB) := by
  have h : MERGE_BLOCKS getBlockType switchToBlockType blockA blockB =
      [Action.selectBlock blockA.clientId none] := by
    unfold MERGE_BLOCKS; rw [hmerge]
  refine ⟨h, ?_, ?_⟩
  · intro ids bs; rw [h]; simp
  · intro ids; rw [h]; simp

/-- Concrete block type registry without merge capability for the C6
witness. -/
def c6GetBlockType : String → BlockType := fun n => ⟨n, none⟩

/-- Concrete first block for the C6 witness. -/
def c6BlockA : Block := Block.mk "a1" "core/image" [("url", "x.png")] []

/-- Concrete second block for the C6 witness. -/
def c6BlockB : Block := Block.mk "b2" "core/paragraph" [("content", "W")] []

/-- Witness for C6 at concrete blocks. -/
theorem merge_blocks_without_capability_witness :
    MERGE_BLOCKS c6GetBlockType (fun _ _ => none) c6BlockA c6BlockB =
      [Action.selectBlock c6BlockA.clientId none] ∧
    (∀ ids bs, Action.replaceBlocks ids bs ∉
      MERGE_BLOCKS c6GetBlockType (fun _ _ => none) c6BlockA c6BlockB) ∧
    (∀ ids, Action.removeBlocks ids ∉
      MERGE_BLOCKS c6GetBlockType (fun _ _ => none) c6BlockA c6BlockB) :=
  merge_blocks_without_capability c6GetBlockType (fun _ _ => none) c6BlockA c6BlockB rfl

/-- C5: when the first node type declares a merge capability and the second
node is already of that type or transforms into it with at least one result,
the pair is replaced by a node keeping the first node identity and children
with the combined attributes from the merge algorithm, followed by the
transformed nodes beyond index zero. -/
theorem merge_blocks_replacement (getBlockType : String → BlockType)
    (switchToBlockType : Block → String → Option (List Block))
    (blockA blockB : Block)
    (mergeFn : List (String × String) → List (String × String) →
      List (String × String))
    (t0 : Block) (rest : List Block)
    (hmerge : (getBlockType blockA.name).merge = some mergeFn)
    (htrans : (if blockA.name = blockB.name then some [blockB]
               else switchToBlockType blockB blockA.name) = some (t0 :: rest)) :
    MERGE_BLOCKS getBlockType switchToBlockType blockA blockB =
      [Action.selectBlock blockA.clientId (some (-1)),
       Action.replaceBlocks [blockA.clientId, blockB.clientId]
         (Block.mk blockA.clientId blockA.name
            (jsSpread blockA.attributes (mergeFn blockA.attributes t0.attributes))
            blockA.innerBlocks
          :: rest)] := by
  unfold MERGE_BLOCKS
  rw [hmerge, htrans]

/-- Concrete merge capability for the C5 witness: concatenates the content
attributes. -/
def c5MergeFn : List (String × String) → List (String × String) →
    List (String × String) :=
  fun a b =>
    [("content", (attrLookup a "content").getD "" ++ (attrLookup b "content").getD "")]

/-- Concrete block type registry for the C5 witness. -/
def c5GetBlockType : String → BlockType := fun n => ⟨n, some c5MergeFn⟩

/-- Concrete first block for the C5 witness. -/
def c5BlockA : Block := Block.mk "a1" "core/paragraph" [("content", "Hello")] []

/-- Concrete second block for the C5 witness. -/
def c5BlockB : Block := Block.mk "b2" "core/paragraph" [("content", "World")] []

/-- Witness for C5 at concrete same-type blocks. -/
theorem merge_blocks_replacement_witness :
    MERGE_BLOCKS c5GetBlockType (fun _ _ => none) c5BlockA c5BlockB =
      [Action.selectBlock c5BlockA.clientId (some (-1)),
       Action.replaceBlocks [c5BlockA.clientId, c5BlockB.clientId]
         (Block.mk c5BlockA.clientId c5BlockA.name
            (jsSpread c5BlockA.attributes
              (c5MergeFn c5BlockA.attributes c5BlockB.attributes))
            c5BlockA.innerBlocks
          :: [])] :=
  merge_blocks_replacement c5GetBlockType (fun _ _ => none) c5BlockA c5BlockB
    c5MergeFn c5BlockB [] rfl (by decide)

/-- C2: every save or autosave request that completes successfully first
resets local state from the returned resource (autosave reset vs full post
reset) and immediately afterwards resolves the transaction under the fixed
save transaction id, as COMMIT when the returned resource id equals the
original document id and as REVERT when it differs. -/
theorem save_success_resets_then_resolves (state : EditorState) (isAutosave : Bool)
    (newPost : Post) (editsRemainAfter : Bool)
    (hgate : (if isAutosave = true then state.isEditedPostAutosaveable
              else state.isEditedPostSaveable) = true) :
    ∃ i,
      (REQUEST_POST_UPDATE state isAutosave (SaveOutcome.success newPost)
          editsRemainAfter)[i]? =
        some (if isAutosave = true then Action.resetAutosave newPost
              else Action.resetPost newPost) ∧
      (REQUEST_POST_UPDATE state isAutosave (SaveOutcome.success newPost)
          editsRemainAfter)[i + 1]? =
        some (Action.requestPostUpdateSuccess state.post newPost
          (if newPost.id = state.post.id then OptimistType.COMMIT
           else OptimistType.REVERT)
          POST_UPDATE_TRANSACTION_ID isAutosave) := by
  cases isAutosave with
  | true =>
    simp at hgate
    refine ⟨3, ?_, ?_⟩
    · simp [REQUEST_POST_UPDATE, hgate, requestPostUpdateFlow]
    · by_cases h : newPost.id = state.post.id <;>
        simp [REQUEST_POST_UPDATE, hgate, requestPostUpdateFlow, h]
  | false =>
    simp at hgate
    refine ⟨5, ?_, ?_⟩
    · simp [REQUEST_POST_UPDATE, hgate, requestPostUpdateFlow]
    · by_cases h : newPost.id = state.post.id <;>
        simp [REQUEST_POST_UPDATE, hgate, requestPostUpdateFlow, h]

/-- Concrete post for the C2 witness (scenario: autosave on document 7,
server stores the change as revision 99). -/
def c2Post : Post :=
  { id := 7, status := "draft", title := "T", content := "C", excerpt := "E",
    link := "L" }

/-- Concrete returned revision resource for the C2 witness. -/
def c2NewPost : Post :=
  { id := 99, status := "inherit", title := "T", content := "C", excerpt := "E",
    link := "L9" }

/-- Concrete editor state for the C2 witness. -/
def c2State : EditorState :=
  { post := c2Post, edits := { title := some "x" }, autosave := none,
    isEditedPostNew := false, editedPostContent := "body",
    isEditedPostSaveable := true, isEditedPostAutosaveable := true,
    postTypeRoute := "posts" }

/-- Witness for C2 at the concrete revision scenario (distinct returned id,
so the resolution is REVERT). -/
theorem save_success_resets_then_resolves_witness :
    ∃ i,
      (REQUEST_POST_UPDATE c2State true (SaveOutcome.success c2NewPost) false)[i]? =
        some (if true = true then Action.resetAutosave c2NewPost
              else Action.resetPost c2NewPost) ∧
      (REQUEST_POST_UPDATE c2State true (SaveOutcome.success c2NewPost) false)[i + 1]? =
        some (Action.requestPostUpdateSuccess c2State.post c2NewPost
          (if c2NewPost.id = c2State.post.id then OptimistType.COMMIT
           else OptimistType.REVERT)
          POST_UPDATE_TRANSACTION_ID true) :=
  save_success_resets_then_resolves c2State true c2NewPost false (by decide)

/-- C3: for a successful full save whose result keeps the resource id, the
dispatched success notice follows exactly the spec table over the previous
and new status classified by published-family membership. -/
theorem full_save_success_notice_table (previousPost post : Post)
    (editsRemain : Bool) (_hid : post.id = previousPost.id) :
    REQUEST_POST_UPDATE_SUCCESS previousPost post false editsRemain =
      (if editsRemain = true then [Action.dirtyArtificially] else []) ++
      (match specFullSaveNotice previousPost.status post.status with
       | none => []
       | some (m, withLink) =>
         [Action.createSuccessNotice m withLink SAVE_POST_NOTICE_ID (some m)]) := by
  unfold REQUEST_POST_UPDATE_SUCCESS
  rw [saveSuccessNotice_eq_spec]
  simp

/-- Concrete previous post for the C3 witness (scenario: draft published). -/
def c3PreviousPost : Post :=
  { id := 5, status := "draft", title := "T", content := "C", excerpt := "E",
    link := "L" }

/-- Concrete updated post for the C3 witness. -/
def c3Post : Post :=
  { id := 5, status := "publish", title := "T", content := "C", excerpt := "E",
    link := "L" }

/-- Witness for C3: publishing a draft produces exactly the publish notice
with a view link. -/
theorem full_save_success_notice_table_witness :
    REQUEST_POST_UPDATE_SUCCESS c3PreviousPost c3Post false false =
      (if false = true then [Action.dirtyArtificially] else []) ++
      (match specFullSaveNotice c3PreviousPost.status c3Post.status with
       | none => []
       | some (m, withLink) =>
         [Action.createSuccessNotice m withLink SAVE_POST_NOTICE_ID (some m)]) :=
  full_save_success_notice_table c3PreviousPost c3Post false rfl

/-- C4 (amended): the request payload status is, for a full save, the edited
status overriding the injected draft on new documents and absent injection on
non-new documents; for an autosave, the edits are first restricted to title,
content and excerpt, so any edited status is dropped and a new document
always sends status draft while a non-new document sends no status. -/
theorem save_payload_status_policy (state : EditorState) :
    ((requestPostUpdateRequestData state false).status =
      (if state.isEditedPostNew = true then some (state.edits.status.getD "draft")
       else state.edits.status)) ∧
    ((requestPostUpdateRequestData state true).status =
      (if state.isEditedPostNew = true then some "draft" else none)) := by
  constructor <;>
  · by_cases h : state.isEditedPostNew = true <;>
      simp [requestPostUpdateRequestData, requestPostUpdateBasePayload,
        effectiveEdits, pickAutosaveEdits, autosaveRequestData, h]

/-- Concrete new post for the C4 counterexample. -/
def c4Post : Post :=
  { id := 5, status := "auto-draft", title := "t", content := "c", excerpt := "e",
    link := "l" }

/-- Concrete editor state for the C4 counterexample: a new document whose
edits carry an explicit publish status, autosaved. -/
def c4State : EditorState :=
  { post := c4Post,
    edits := { status := some "publish", title := some "x" },
    autosave := none, isEditedPostNew := true, editedPostContent := "body",
    isEditedPostSaveable := true, isEditedPostAutosaveable := true,
    postTypeRoute := "posts" }

/-- C4 counterexample: on an autosave of a new document whose edits carry an
explicit status, the issued request payload carries status draft, not the
edited status, contradicting the claim for this save request. -/
theorem new_post_autosave_status_counterexample :
    c4State.isEditedPostNew = true ∧
    c4State.edits.status = some "publish" ∧
    (requestPostUpdateRequestData c4State true).status = some "draft" ∧
    (requestPostUpdateRequestData c4State true).status ≠ c4State.edits.status ∧
    Action.postAutosaveRequest "/wp/v2/posts/5/autosaves"
        (requestPostUpdateRequestData c4State true) ∈
      REQUEST_POST_UPDATE c4State true (SaveOutcome.success c4Post) false := by
  refine ⟨rfl, rfl, by decide, by decide, ?_⟩
  decide

/-- C1 (amended): an autosave attempt dispatches no success notice on any
outcome and no error notice on success; on request failure an error notice
is dispatched exactly when the error code differs from the recognized
autosave no-changes code (only that code is suppressed). -/
theorem autosave_notice_policy (state : EditorState) (outcome : SaveOutcome)
    (editsRemainAfter : Bool) (hgate : state.isEditedPostAutosaveable = true) :
    (∀ m w i s, Action.createSuccessNotice m w i s ∉
        REQUEST_POST_UPDATE state true outcome editsRemainAfter) ∧
    (∀ newPost, outcome = SaveOutcome.success newPost →
      ∀ m i s, Action.createErrorNotice m i s ∉
        REQUEST_POST_UPDATE state true outcome editsRemainAfter) ∧
    (∀ e, outcome = SaveOutcome.failure e →
      ((∃ m s, Action.createErrorNotice m SAVE_POST_NOTICE_ID s ∈
          REQUEST_POST_UPDATE state true outcome editsRemainAfter) ↔
        e.code ≠ "rest_autosave_no_changes")) := by
  refine ⟨?_, ?_, ?_⟩
  · intro m w i s
    cases outcome with
    | success newPost =>
      cases editsRemainAfter <;>
        simp [REQUEST_POST_UPDATE, hgate, requestPostUpdateFlow,
          REQUEST_POST_UPDATE_SUCCESS, REQUEST_POST_UPDATE_FAILURE]
    | failure e =>
      by_cases hc : e.code = "rest_autosave_no_changes" <;>
        simp [REQUEST_POST_UPDATE, hgate, requestPostUpdateFlow,
          REQUEST_POST_UPDATE_SUCCESS, REQUEST_POST_UPDATE_FAILURE, hc]
  · intro newPost hout m i s
    subst hout
    cases editsRemainAfter <;>
      simp [REQUEST_POST_UPDATE, hgate, requestPostUpdateFlow,
        REQUEST_POST_UPDATE_SUCCESS]
  · intro e hout
    subst hout
    by_cases hc : e.code = "rest_autosave_no_changes"
    · simp [REQUEST_POST_UPDATE, hgate, requestPostUpdateFlow,
        REQUEST_POST_UPDATE_FAILURE, hc]
    · constructor
      · intro _; exact hc
      · intro _
        refine ⟨saveFailureNoticeMessage state.post (effectiveEdits state true),
          none, ?_⟩
        simp [REQUEST_POST_UPDATE, hgate, requestPostUpdateFlow,
          REQUEST_POST_UPDATE_FAILURE, hc]

/-- Concrete post for the C1 theorems. -/
def c1Post : Post :=
  { id := 7, status := "draft", title := "T", content := "C", excerpt := "E",
    link := "L" }

/-- Concrete autosaveable editor state for the C1 theorems. -/
def c1State : EditorState :=
  { post := c1Post, edits := { title := some "x" }, autosave := none,
    isEditedPostNew := false, editedPostContent := "body",
    isEditedPostSaveable := true, isEditedPostAutosaveable := true,
    postTypeRoute := "posts" }

/-- C1 counterexample: an autosave attempt whose request fails with an
ordinary error code (forbidden) does dispatch an error notice, contradicting
the claim that no error notice is ever dispatched for autosave attempts. -/
theorem autosave_failure_emits_error_notice :
    Action.createErrorNotice "Updating failed" SAVE_POST_NOTICE_ID none ∈
      REQUEST_POST_UPDATE c1State true
        (SaveOutcome.failure { code := "forbidden", message := "Nope" }) false := by
  decide

/-- Witness for the amended C1 at a concrete successful autosave. -/
theorem autosave_notice_policy_witness :
    (∀ m w i s, Action.createSuccessNotice m w i s ∉
        REQUEST_POST_UPDATE c1State true (SaveOutcome.success c1Post) false) ∧
    (∀ newPost, SaveOutcome.success c1Post = SaveOutcome.success newPost →
      ∀ m i s, Action.createErrorNotice m i s ∉
        REQUEST_POST_UPDATE c1State true (SaveOutcome.success c1Post) false) ∧
    (∀ e, SaveOutcome.success c1Post = SaveOutcome.failure e →
      ((∃ m s, Action.createErrorNotice m SAVE_POST_NOTICE_ID s ∈
          REQUEST_POST_UPDATE c1State true (SaveOutcome.success c1Post) false) ↔
        e.code ≠ "rest_autosave_no_changes")) :=
  autosave_notice_policy c1State (SaveOutcome.success c1Post) false rfl

end GutenbergEffects
